import Mathlib

/-!
Shallow embedding of the `custom_requests` package
(`custom_requests/__main__.py` and `custom_requests/lib/exceptions.py`).

The package is a thin wrapper over a generic HTTP transport: a `Request`
session holds default headers, a default timeout and a default allow-list of
status codes; `_request` invokes the transport and classifies the returned
status code, raising a typed error (or the transport's native HTTP error) for
disallowed codes; the public verbs `get`, `post`, `head`, `patch` shape their
parameters, dispatch through `_request` and wrap the raw response in a
`Response`.

Modelling conventions:
* Python tuples/dicts become Lists; an empty list models the falsy empty
  tuple/dict, so Python's `x or y` defaulting becomes `if x = [] then y else x`.
* The transport (the external `requests` library) is a parameter: a function
  from the arguments the session passes to it to the raw response it returns.
  Its `raise_for_status` is modelled separately (see `raise_for_status`).
* Raising an exception is modelled with `Except`: an exceptional exit carries
  the exception value, a normal exit carries the result.
* Logging, the retry decorator and the network itself are side effects outside
  the model; exceptions are modelled as data carriers holding exactly the
  constructor arguments the Python classes receive.
-/

/-- An entry of a status-code allow-list tuple: either an integer status code
or the wildcard string, which Python stores alongside the integers. -/
inductive StatusEntry where
  | code (n : Nat)
  | star
deriving DecidableEq

/-- A JSON-like structured value, the result of a successful body parse. -/
inductive JsonValue where
  | null
  | bool (b : Bool)
  | num (n : Int)
  | str (s : String)
  | arr (elems : List JsonValue)
  | obj (fields : List (String × JsonValue))

/-- The raw response object the transport returns, with the attributes the
package reads: `url`, `headers`, `status_code`, `reason`, `text`, and the
result of calling `.json()` on it (`none` models the `ValueError` a
non-parseable body raises). -/
structure RawResponse where
  url : String
  headers : List (String × String)
  status_code : Nat
  reason : String
  text : String
  json : Option JsonValue

/-- A string rendering of the raw response's `__dict__`, the diagnostic blob
Python passes to `UnexpectedRequestResult`. -/
def RawResponse.dict (r : RawResponse) : String :=
  "url=" ++ r.url ++ ", status_code=" ++ toString r.status_code ++
    ", reason=" ++ r.reason ++ ", text=" ++ r.text

/-- The exceptions of `custom_requests.lib.exceptions`, plus the transport's
native `HTTPError` that `raise_for_status` raises. Each constructor carries
exactly the arguments the Python `__init__` receives (the construction-time
logging side effect is outside the model). -/
inductive RequestError where
  | unexpectedStatusCode (url : String) (status_code : Nat) (reason : String) (request_text : String)
  | unexpectedRequestResult (status_code : Nat) (reason : String) (request_text : String)
  | rateLimitedError (url : String) (status_code : Nat) (reason : String)
  | httpError (status_code : Nat) (url : String)

/-- Models the external transport's `raise_for_status`: it raises the
transport's native `HTTPError` exactly for 4xx and 5xx status codes and
returns normally for every other status. This matches the source's own
comment at the call site ("Raise the included non-200 exception for 4xx
and 5xx") and the transport library's documented behaviour. -/
def raise_for_status (r : RawResponse) : Except RequestError Unit :=
  if 400 ≤ r.status_code ∧ r.status_code < 600 then
    Except.error (RequestError.httpError r.status_code r.url)
  else
    Except.ok ()

/-- The session state of `Request` (a `requests.Session` subclass): the fields
`__init__` sets. The injected logger performs only side effects and is
omitted. -/
structure Request where
  base_url : String
  request_headers : List (String × String)
  timeout : Nat × Nat
  allowed_status_codes : List StatusEntry

/-- `Request.__init__`: empty base url, empty default headers, timeout
`(10, 15)`, allow-list `(200,)`. -/
def Request.init : Request :=
  ⟨"", [], (10, 15), [StatusEntry.code 200]⟩

/-- The effective allow-list of a call: `status_codes or self.allowed_status_codes`,
i.e. the caller-supplied tuple when non-empty, else the session default. -/
def effectiveAllowList (status_codes : List StatusEntry) (self : Request) : List StatusEntry :=
  if status_codes = [] then self.allowed_status_codes else status_codes

/-- The condition of the disallowed-status branch at line 98 of `_request`:
`request.status_code not in (status_codes or self.allowed_status_codes)
and "*" not in status_codes`. Note the wildcard test looks only at the
caller-supplied `status_codes`, never at the session default. -/
def disallowedBranch (status_code : Nat) (status_codes : List StatusEntry) (self : Request) : Prop :=
  StatusEntry.code status_code ∉ effectiveAllowList status_codes self ∧
    StatusEntry.star ∉ status_codes

instance (s : Nat) (sc : List StatusEntry) (self : Request) :
    Decidable (disallowedBranch s sc self) :=
  inferInstanceAs (Decidable (_ ∧ _))

/-- The status-code classification performed by `Request._request` on the
transport's raw response (lines 96-104): 429 raises `RateLimitedError`;
a disallowed status other than 200 raises the native HTTP error when
`raise_for_status` does raise, and `UnexpectedStatusCode` otherwise (404
skips `raise_for_status` and goes straight to `UnexpectedStatusCode`);
everything else falls through and returns the raw response. -/
def Request.classify (self : Request) (request : RawResponse) (status_codes : List StatusEntry) :
    Except RequestError RawResponse :=
  if request.status_code = 429 then
    Except.error (RequestError.rateLimitedError request.url request.status_code request.reason)
  else if disallowedBranch request.status_code status_codes self then
    if request.status_code ≠ 200 then
      if request.status_code ≠ 404 then
        match raise_for_status request with
        | Except.error e => Except.error e
        | Except.ok _ =>
            Except.error (RequestError.unexpectedStatusCode request.url request.status_code
              request.reason request.text)
      else
        Except.error (RequestError.unexpectedStatusCode request.url request.status_code
          request.reason request.text)
    else
      Except.ok request
  else
    Except.ok request

/-- The arguments `_request` hands to the transport's verb method. -/
structure TransportArgs where
  method : String
  url : String
  data : Option (List (String × String))
  headers : List (String × String)
  auth : List String
  allow_redirects : Bool
  timeout : Nat × Nat

/-- How `_request` builds the transport call: `data or None`,
`headers or self.request_headers`, `timeout or self.timeout`. -/
def Request.transportArgs (self : Request) (method url : String)
    (data headers : List (String × String)) (auth : List String)
    (allow_redirects : Bool) (timeout : Option (Nat × Nat)) : TransportArgs :=
  ⟨method, url,
    if data = [] then none else some data,
    if headers = [] then self.request_headers else headers,
    auth, allow_redirects,
    match timeout with
    | none => self.timeout
    | some t => t⟩

/-- `Request._request`: invoke the transport, classify the status code, and
either raise or return the raw response. The session state is threaded
through explicitly; the method body assigns to no session field, so the
returned state is the input state. -/
def Request._request (self : Request) (method url : String)
    (data headers : List (String × String)) (auth : List String)
    (allow_redirects : Bool) (timeout : Option (Nat × Nat))
    (status_codes : List StatusEntry) (transport : TransportArgs → RawResponse) :
    Request × Except RequestError RawResponse :=
  let request := transport (self.transportArgs method url data headers auth allow_redirects timeout)
  (self, self.classify request status_codes)

/-- The `Response` wrapper: holds the raw response it was constructed from. -/
structure Response where
  request : RawResponse

/-- `Response.url` property. -/
def Response.url (self : Response) : String :=
  self.request.url

/-- `Response.headers` property. -/
def Response.headers (self : Response) : List (String × String) :=
  self.request.headers

/-- `Response.status_code` property. -/
def Response.status_code (self : Response) : Nat :=
  self.request.status_code

/-- `Response.reason` property. -/
def Response.reason (self : Response) : String :=
  self.request.reason

/-- `Response.text` property. -/
def Response.text (self : Response) : String :=
  self.request.text

/-- `Response.json` property: return the parsed body; when parsing raised
`ValueError` (modelled by `none`), raise `UnexpectedRequestResult` with the
response's status code, reason and the raw response's `__dict__`. -/
def Response.json (self : Response) : Except RequestError JsonValue :=
  match self.request.json with
  | some v => Except.ok v
  | none =>
      Except.error (RequestError.unexpectedRequestResult self.status_code self.reason
        self.request.dict)

/-- `Request.get`: dispatch through `_request` with `data=dict()` and wrap the
result in a `Response`. (`headers or dict()` is the identity under the list
model and is dropped.) -/
def Request.get (self : Request) (url : String) (headers : List (String × String))
    (auth : List String) (allow_redirects : Bool) (timeout : Option (Nat × Nat))
    (status_codes : List StatusEntry) (transport : TransportArgs → RawResponse) :
    Request × Except RequestError Response :=
  let r := self._request "get" url [] headers auth allow_redirects timeout status_codes transport
  (r.1, Except.map Response.mk r.2)

/-- `Request.post`: dispatch through `_request` with the caller's data and wrap
the result in a `Response`. (`data or dict()` and `headers or dict()` are
identities under the list model and are dropped.) -/
def Request.post (self : Request) (url : String) (data headers : List (String × String))
    (auth : List String) (allow_redirects : Bool) (timeout : Option (Nat × Nat))
    (status_codes : List StatusEntry) (transport : TransportArgs → RawResponse) :
    Request × Except RequestError Response :=
  let r := self._request "post" url data headers auth allow_redirects timeout status_codes transport
  (r.1, Except.map Response.mk r.2)

/-- `Request.head`: dispatch through `_request` with `data=dict()` and wrap the
result in a `Response`. -/
def Request.head (self : Request) (url : String) (headers : List (String × String))
    (auth : List String) (allow_redirects : Bool) (timeout : Option (Nat × Nat))
    (status_codes : List StatusEntry) (transport : TransportArgs → RawResponse) :
    Request × Except RequestError Response :=
  let r := self._request "head" url [] headers auth allow_redirects timeout status_codes transport
  (r.1, Except.map Response.mk r.2)

/-- `Request.patch`: dispatch through `_request` with the caller's data and
wrap the result in a `Response`. -/
def Request.patch (self : Request) (url : String) (data headers : List (String × String))
    (auth : List String) (allow_redirects : Bool) (timeout : Option (Nat × Nat))
    (status_codes : List StatusEntry) (transport : TransportArgs → RawResponse) :
    Request × Except RequestError Response :=
  let r := self._request "patch" url data headers auth allow_redirects timeout status_codes transport
  (r.1, Except.map Response.mk r.2)

/-- The four public verbs. -/
inductive Verb where
  | get
  | post
  | head
  | patch
deriving DecidableEq

/-- The method string a verb passes to `_request`. -/
def Verb.methodName : Verb → String
  | Verb.get => "get"
  | Verb.post => "post"
  | Verb.head => "head"
  | Verb.patch => "patch"

/-- The data a verb forwards to `_request`: `get` and `head` always pass the
empty dict, `post` and `patch` forward the caller's data. -/
def Verb.dataArg : Verb → List (String × String) → List (String × String)
  | Verb.get, _ => []
  | Verb.post, data => data
  | Verb.head, _ => []
  | Verb.patch, data => data

/-- A uniform interface to the four verb methods: `Verb.call v` invokes the
corresponding method (`get` and `head` take no data parameter and ignore
`data`). -/
def Verb.call (v : Verb) (self : Request) (url : String)
    (data headers : List (String × String)) (auth : List String)
    (allow_redirects : Bool) (timeout : Option (Nat × Nat))
    (status_codes : List StatusEntry) (transport : TransportArgs → RawResponse) :
    Request × Except RequestError Response :=
  match v with
  | Verb.get => self.get url headers auth allow_redirects timeout status_codes transport
  | Verb.post => self.post url data headers auth allow_redirects timeout status_codes transport
  | Verb.head => self.head url headers auth allow_redirects timeout status_codes transport
  | Verb.patch => self.patch url data headers auth allow_redirects timeout status_codes transport

/-- The raw response the transport returns for a given verb call. -/
def Verb.response (v : Verb) (self : Request) (url : String)
    (data headers : List (String × String)) (auth : List String)
    (allow_redirects : Bool) (timeout : Option (Nat × Nat))
    (transport : TransportArgs → RawResponse) : RawResponse :=
  transport (self.transportArgs v.methodName url (v.dataArg data) headers auth allow_redirects timeout)

/-- A concrete raw response used to instantiate theorems, parameterised by its
status code. -/
def sampleResponse (s : Nat) : RawResponse :=
  ⟨"http://example.test/x", [], s, "Some Reason", "Some Body", none⟩

/-- A concrete transport returning `sampleResponse s` for every call. -/
def sampleTransport (s : Nat) : TransportArgs → RawResponse :=
  fun _ => sampleResponse s

/-- A concrete raw response whose body parsed successfully. -/
def parsedResponse : RawResponse :=
  ⟨"http://example.test/x", [], 200, "OK", "1", some (JsonValue.num 1)⟩

/-- A concrete session whose default allow-list is the lone wildcard. -/
def starSession : Request :=
  ⟨"", [], (10, 15), [StatusEntry.star]⟩

/-- Every verb call is the classification of the transport's response, with
the accepted raw response wrapped in a `Response`, and the session state
returned unchanged. -/
theorem Verb.call_eq (v : Verb) (self : Request) (url : String)
    (data headers : List (String × String)) (auth : List String)
    (allow_redirects : Bool) (timeout : Option (Nat × Nat))
    (status_codes : List StatusEntry) (transport : TransportArgs → RawResponse) :
    Verb.call v self url data headers auth allow_redirects timeout status_codes transport =
      (self, Except.map Response.mk
        (self.classify (Verb.response v self url data headers auth allow_redirects timeout transport)
          status_codes)) := by
  cases v <;> rfl

/-- C3: for every verb call, when the transport returns status 429 the call
raises `RateLimitedError` carrying the url, the status code and the reason,
whatever the caller-supplied or session allow-list contains. -/
theorem status_429_always_rate_limited (v : Verb) (self : Request) (url : String)
    (data headers : List (String × String)) (auth : List String)
    (allow_redirects : Bool) (timeout : Option (Nat × Nat))
    (status_codes : List StatusEntry) (transport : TransportArgs → RawResponse)
    (resp : RawResponse)
    (hresp : Verb.response v self url data headers auth allow_redirects timeout transport = resp)
    (h429 : resp.status_code = 429) :
    (Verb.call v self url data headers auth allow_redirects timeout status_codes transport).2 =
      Except.error (RequestError.rateLimitedError resp.url resp.status_code resp.reason) := by
  subst hresp
  rw [Verb.call_eq]
  simp [Request.classify, h429, Except.map]

/-- C3 witness: a concrete `get` against a transport answering 429, with 429
in the caller allow-list, still raises `RateLimitedError`. -/
theorem status_429_witness :
    Verb.response Verb.get Request.init "http://example.test/x" [] [] [] true none
        (sampleTransport 429) = sampleResponse 429 ∧
    (sampleResponse 429).status_code = 429 ∧
    (Verb.call Verb.get Request.init "http://example.test/x" [] [] [] true none
        [StatusEntry.code 429] (sampleTransport 429)).2 =
      Except.error (RequestError.rateLimitedError "http://example.test/x" 429 "Some Reason") :=
  ⟨rfl, rfl,
    status_429_always_rate_limited Verb.get Request.init "http://example.test/x" [] [] [] true none
      [StatusEntry.code 429] (sampleTransport 429) (sampleResponse 429) rfl rfl⟩

/-- C6: for every verb call whose caller-supplied allow-list contains the
wildcard, every status code is accepted and wrapped, except 429 which raises
`RateLimitedError` first. -/
theorem wildcard_accepts_all_but_429 (v : Verb) (self : Request) (url : String)
    (data headers : List (String × String)) (auth : List String)
    (allow_redirects : Bool) (timeout : Option (Nat × Nat))
    (status_codes : List StatusEntry) (transport : TransportArgs → RawResponse)
    (resp : RawResponse)
    (hresp : Verb.response v self url data headers auth allow_redirects timeout transport = resp)
    (hstar : StatusEntry.star ∈ status_codes) :
    (Verb.call v self url data headers auth allow_redirects timeout status_codes transport).2 =
      if resp.status_code = 429 then
        Except.error (RequestError.rateLimitedError resp.url resp.status_code resp.reason)
      else
        Except.ok (Response.mk resp) := by
  subst hresp
  rw [Verb.call_eq]
  by_cases h429 :
      (Verb.response v self url data headers auth allow_redirects timeout transport).status_code = 429
  · simp [Request.classify, h429, Except.map]
  · simp [Request.classify, disallowedBranch, h429, hstar, Except.map]

/-- C6 witness: with the wildcard supplied, a 418 response is wrapped and
returned, and a 429 response still raises `RateLimitedError`. -/
theorem wildcard_witness :
    (StatusEntry.star ∈ [StatusEntry.star] ∧
      (Verb.call Verb.post Request.init "http://example.test/x" [] [] [] true none
          [StatusEntry.star] (sampleTransport 418)).2 =
        Except.ok (Response.mk (sampleResponse 418))) ∧
    (Verb.call Verb.post Request.init "http://example.test/x" [] [] [] true none
        [StatusEntry.star] (sampleTransport 429)).2 =
      Except.error (RequestError.rateLimitedError "http://example.test/x" 429 "Some Reason") := by
  refine ⟨⟨by decide, ?_⟩, ?_⟩
  · have h := wildcard_accepts_all_but_429 Verb.post Request.init "http://example.test/x" [] [] []
      true none [StatusEntry.star] (sampleTransport 418) (sampleResponse 418) rfl (by decide)
    simpa using h
  · have h := wildcard_accepts_all_but_429 Verb.post Request.init "http://example.test/x" [] [] []
      true none [StatusEntry.star] (sampleTransport 429) (sampleResponse 429) rfl (by decide)
    simpa using h

/-- C7: for every verb call, a 404 response with 404 outside the effective
allow-list and no wildcard supplied raises `UnexpectedStatusCode` carrying
the url, 404, the reason and the body text. -/
theorem disallowed_404_unexpected_status (v : Verb) (self : Request) (url : String)
    (data headers : List (String × String)) (auth : List String)
    (allow_redirects : Bool) (timeout : Option (Nat × Nat))
    (status_codes : List StatusEntry) (transport : TransportArgs → RawResponse)
    (resp : RawResponse)
    (hresp : Verb.response v self url data headers auth allow_redirects timeout transport = resp)
    (h404 : resp.status_code = 404)
    (hmem : StatusEntry.code 404 ∉ effectiveAllowList status_codes self)
    (hstar : StatusEntry.star ∉ status_codes) :
    (Verb.call v self url data headers auth allow_redirects timeout status_codes transport).2 =
      Except.error (RequestError.unexpectedStatusCode resp.url 404 resp.reason resp.text) := by
  subst hresp
  rw [Verb.call_eq]
  simp [Request.classify, disallowedBranch, h404, hmem, hstar, Except.map]

/-- C7 witness: a concrete `get` with the default allow-list against a
transport answering 404 raises `UnexpectedStatusCode` with the url, 404, the
reason and the body text. -/
theorem disallowed_404_witness :
    (sampleResponse 404).status_code = 404 ∧
    StatusEntry.code 404 ∉ effectiveAllowList [] Request.init ∧
    StatusEntry.star ∉ ([] : List StatusEntry) ∧
    (Verb.call Verb.get Request.init "http://example.test/x" [] [] [] true none []
        (sampleTransport 404)).2 =
      Except.error (RequestError.unexpectedStatusCode "http://example.test/x" 404 "Some Reason"
        "Some Body") :=
  ⟨rfl, by decide, by decide,
    disallowed_404_unexpected_status Verb.get Request.init "http://example.test/x" [] [] [] true
      none [] (sampleTransport 404) (sampleResponse 404) rfl rfl (by decide) (by decide)⟩

/-- C9: no verb call mutates the session: `base_url`, `request_headers`,
`timeout` and `allowed_status_codes` are identical before and after every
call, whether the call returns a wrapped response or raises. -/
theorem verb_calls_preserve_session (v : Verb) (self : Request) (url : String)
    (data headers : List (String × String)) (auth : List String)
    (allow_redirects : Bool) (timeout : Option (Nat × Nat))
    (status_codes : List StatusEntry) (transport : TransportArgs → RawResponse) :
    (Verb.call v self url data headers auth allow_redirects timeout status_codes transport).1.base_url
        = self.base_url ∧
    (Verb.call v self url data headers auth allow_redirects timeout status_codes transport).1.request_headers
        = self.request_headers ∧
    (Verb.call v self url data headers auth allow_redirects timeout status_codes transport).1.timeout
        = self.timeout ∧
    (Verb.call v self url data headers auth allow_redirects timeout status_codes transport).1.allowed_status_codes
        = self.allowed_status_codes := by
  rw [Verb.call_eq]
  exact ⟨rfl, rfl, rfl, rfl⟩

/-- C8: `Response.json` raises `UnexpectedRequestResult` carrying the
response's status code and reason when the body parse raised `ValueError`,
and returns the parsed value when the parse succeeded. -/
theorem response_json_parse (resp : Response) :
    (resp.request.json = none →
      resp.json = Except.error (RequestError.unexpectedRequestResult resp.status_code resp.reason
        resp.request.dict)) ∧
    ∀ v : JsonValue, resp.request.json = some v → resp.json = Except.ok v := by
  constructor
  · intro h
    simp [Response.json, h]
  · intro v h
    simp [Response.json, h]

/-- C8 witness: a response with an unparseable body raises
`UnexpectedRequestResult` with its status code and reason; a response whose
body parsed returns the parsed value. -/
theorem response_json_witness :
    ((Response.mk (sampleResponse 200)).request.json = none ∧
      (Response.mk (sampleResponse 200)).json =
        Except.error (RequestError.unexpectedRequestResult 200 "Some Reason"
          (sampleResponse 200).dict)) ∧
    ((Response.mk parsedResponse).request.json = some (JsonValue.num 1) ∧
      (Response.mk parsedResponse).json = Except.ok (JsonValue.num 1)) :=
  ⟨⟨rfl, (response_json_parse (Response.mk (sampleResponse 200))).1 rfl⟩,
    ⟨rfl, (response_json_parse (Response.mk parsedResponse)).2 (JsonValue.num 1) rfl⟩⟩

/-- C4 counterexample: 429 sits in the caller's allow-list, yet the call
raises `RateLimitedError` instead of returning a wrapped `Response`, so
membership in the effective allow-list does not guarantee an error-free
return. -/
theorem allowed_status_claim_fails_at_429 :
    StatusEntry.code 429 ∈ effectiveAllowList [StatusEntry.code 429] Request.init ∧
    (Verb.call Verb.get Request.init "http://example.test/x" [] [] [] true none
        [StatusEntry.code 429] (sampleTransport 429)).2 =
      Except.error (RequestError.rateLimitedError "http://example.test/x" 429 "Some Reason") :=
  ⟨by decide, rfl⟩

/-- C4 (amended): for every verb call whose status code is in the effective
allow-list and is not 429, the call returns the response wrapped in a
`Response` without raising; a 429 raises `RateLimitedError` even when
allowed. -/
theorem allowed_status_accepted_unless_429 (v : Verb) (self : Request) (url : String)
    (data headers : List (String × String)) (auth : List String)
    (allow_redirects : Bool) (timeout : Option (Nat × Nat))
    (status_codes : List StatusEntry) (transport : TransportArgs → RawResponse)
    (resp : RawResponse)
    (hresp : Verb.response v self url data headers auth allow_redirects timeout transport = resp)
    (hmem : StatusEntry.code resp.status_code ∈ effectiveAllowList status_codes self)
    (h429 : resp.status_code ≠ 429) :
    (Verb.call v self url data headers auth allow_redirects timeout status_codes transport).2 =
      Except.ok (Response.mk resp) := by
  subst hresp
  rw [Verb.call_eq]
  simp [Request.classify, disallowedBranch, hmem, h429, Except.map]

/-- C4 witness: a 201 response with 201 in the caller allow-list is wrapped
and returned. -/
theorem allowed_status_witness :
    StatusEntry.code 201 ∈ effectiveAllowList [StatusEntry.code 201] Request.init ∧
    (201 : Nat) ≠ 429 ∧
    (Verb.call Verb.head Request.init "http://example.test/x" [] [] [] false none
        [StatusEntry.code 201] (sampleTransport 201)).2 =
      Except.ok (Response.mk (sampleResponse 201)) :=
  ⟨by decide, by decide,
    allowed_status_accepted_unless_429 Verb.head Request.init "http://example.test/x" [] [] []
      false none [StatusEntry.code 201] (sampleTransport 201) (sampleResponse 201) rfl
      (by decide) (by decide)⟩

/-- C5 counterexample: the disallowed-status branch with status 200 is
reachable — the caller supplies an allow-list excluding 200, the transport
answers 200, line 98's condition holds — yet the response is still accepted
and wrapped without error. -/
theorem status_200_branch_reachable :
    disallowedBranch 200 [StatusEntry.code 404] Request.init ∧
    (Verb.call Verb.get Request.init "http://example.test/x" [] [] [] true none
        [StatusEntry.code 404] (sampleTransport 200)).2 =
      Except.ok (Response.mk (sampleResponse 200)) :=
  ⟨by decide, rfl⟩

/-- C5 (amended): the branch where the status is 200 yet 200 is outside the
effective allow-list is reachable (when the caller supplies a non-empty
allow-list excluding 200 and no wildcard), but harmless: a 200 response is
always treated as accepted and returned for wrapping, never raising a
disallowed-status error. -/
theorem status_200_always_accepted (v : Verb) (self : Request) (url : String)
    (data headers : List (String × String)) (auth : List String)
    (allow_redirects : Bool) (timeout : Option (Nat × Nat))
    (status_codes : List StatusEntry) (transport : TransportArgs → RawResponse)
    (resp : RawResponse)
    (hresp : Verb.response v self url data headers auth allow_redirects timeout transport = resp)
    (h200 : resp.status_code = 200) :
    (Verb.call v self url data headers auth allow_redirects timeout status_codes transport).2 =
      Except.ok (Response.mk resp) := by
  subst hresp
  rw [Verb.call_eq]
  by_cases hdis : disallowedBranch 200 status_codes self
  · simp [Request.classify, h200, hdis, Except.map]
  · simp [Request.classify, h200, hdis, Except.map]

/-- C5 witness: a 200 response against a caller allow-list excluding 200 is
still wrapped and returned. -/
theorem status_200_witness :
    (sampleResponse 200).status_code = 200 ∧
    (Verb.call Verb.patch Request.init "http://example.test/x" [] [] [] true none
        [StatusEntry.code 404] (sampleTransport 200)).2 =
      Except.ok (Response.mk (sampleResponse 200)) :=
  ⟨rfl,
    status_200_always_accepted Verb.patch Request.init "http://example.test/x" [] [] [] true none
      [StatusEntry.code 404] (sampleTransport 200) (sampleResponse 200) rfl rfl⟩

/-- C1 counterexample: a 304 response with the default allow-list satisfies
every precondition of the claim (disallowed, not 200/404/429, no wildcard),
yet the call raises the typed `UnexpectedStatusCode`, not the transport's
native error: `raise_for_status` returns normally for a 3xx status and the
code then falls through to the typed wrapper. -/
theorem native_error_claim_fails_at_304 :
    StatusEntry.code 304 ∉ effectiveAllowList [] Request.init ∧
    StatusEntry.star ∉ ([] : List StatusEntry) ∧
    (Verb.call Verb.get Request.init "http://example.test/x" [] [] [] true none []
        (sampleTransport 304)).2 =
      Except.error (RequestError.unexpectedStatusCode "http://example.test/x" 304 "Some Reason"
        "Some Body") ∧
    RequestError.unexpectedStatusCode "http://example.test/x" 304 "Some Reason" "Some Body" ≠
      RequestError.httpError 304 "http://example.test/x" :=
  ⟨by decide, by decide, rfl, fun h => RequestError.noConfusion h⟩

/-- C1 (amended): for every verb call whose status code is outside the
effective allow-list, not 200, not 404, not 429, and with no wildcard
supplied, the call raises the transport's native HTTP status error when the
status is in the 400-599 range, and `UnexpectedStatusCode` otherwise. -/
theorem native_error_only_for_4xx_5xx (v : Verb) (self : Request) (url : String)
    (data headers : List (String × String)) (auth : List String)
    (allow_redirects : Bool) (timeout : Option (Nat × Nat))
    (status_codes : List StatusEntry) (transport : TransportArgs → RawResponse)
    (resp : RawResponse)
    (hresp : Verb.response v self url data headers auth allow_redirects timeout transport = resp)
    (hmem : StatusEntry.code resp.status_code ∉ effectiveAllowList status_codes self)
    (hstar : StatusEntry.star ∉ status_codes)
    (h200 : resp.status_code ≠ 200) (h404 : resp.status_code ≠ 404)
    (h429 : resp.status_code ≠ 429) :
    (Verb.call v self url data headers auth allow_redirects timeout status_codes transport).2 =
      if 400 ≤ resp.status_code ∧ resp.status_code < 600 then
        Except.error (RequestError.httpError resp.status_code resp.url)
      else
        Except.error (RequestError.unexpectedStatusCode resp.url resp.status_code resp.reason
          resp.text) := by
  subst hresp
  rw [Verb.call_eq]
  by_cases hr :
      400 ≤ (Verb.response v self url data headers auth allow_redirects timeout transport).status_code ∧
        (Verb.response v self url data headers auth allow_redirects timeout transport).status_code < 600
  · simp [Request.classify, raise_for_status, disallowedBranch, hmem, hstar, h200, h404, h429, hr,
      Except.map]
  · simp [Request.classify, raise_for_status, disallowedBranch, hmem, hstar, h200, h404, h429, hr,
      Except.map]

/-- C1 witness: a disallowed 500 response raises the transport's native HTTP
error. -/
theorem native_error_witness :
    StatusEntry.code 500 ∉ effectiveAllowList [] Request.init ∧
    StatusEntry.star ∉ ([] : List StatusEntry) ∧
    (Verb.call Verb.post Request.init "http://example.test/x" [] [] [] true none []
        (sampleTransport 500)).2 =
      Except.error (RequestError.httpError 500 "http://example.test/x") := by
  refine ⟨by decide, by decide, ?_⟩
  have h := native_error_only_for_4xx_5xx Verb.post Request.init "http://example.test/x" [] [] []
    true none [] (sampleTransport 500) (sampleResponse 500) rfl (by decide) (by decide) (by decide)
    (by decide) (by decide)
  simpa using h

/-- Helper: the classification never substitutes a different raw response —
whenever it returns normally, it returns exactly the transport's response. -/
theorem Request.classify_ok (self : Request) (request : RawResponse)
    (status_codes : List StatusEntry) (r : RawResponse)
    (h : self.classify request status_codes = Except.ok r) : r = request := by
  unfold Request.classify at h
  repeat' split at h
  all_goals simp_all

/-- C2 counterexample: (a) with the caller allow-list `(404,)` a 200 response
is outside the effective allowed set and is not 404, yet no exception is
raised and a `Response` is constructed from it; (b) a 404 outside the
allowed set is not let through: it raises `UnexpectedStatusCode` before any
`Response` is created. -/
theorem response_invariant_fails_at_200_and_404 :
    (StatusEntry.code 200 ∉ effectiveAllowList [StatusEntry.code 404] Request.init ∧
      (Verb.call Verb.get Request.init "http://example.test/x" [] [] [] true none
          [StatusEntry.code 404] (sampleTransport 200)).2 =
        Except.ok (Response.mk (sampleResponse 200))) ∧
    (StatusEntry.code 404 ∉ effectiveAllowList [] Request.init ∧
      (Verb.call Verb.get Request.init "http://example.test/x" [] [] [] true none []
          (sampleTransport 404)).2 =
        Except.error (RequestError.unexpectedStatusCode "http://example.test/x" 404 "Some Reason"
          "Some Body")) :=
  ⟨⟨by decide, rfl⟩, ⟨by decide, rfl⟩⟩

/-- C2 (amended): a `Response` is only ever constructed from the transport's
raw response, and exactly when its status code is not 429 and is either
judged acceptable (in the effective allow-list, or let in by a caller
wildcard) or equals 200, which is let through deliberately; any other status
code — 404 included — raises before a `Response` is created. -/
theorem response_wrapping_characterization (v : Verb) (self : Request) (url : String)
    (data headers : List (String × String)) (auth : List String)
    (allow_redirects : Bool) (timeout : Option (Nat × Nat))
    (status_codes : List StatusEntry) (transport : TransportArgs → RawResponse)
    (resp : RawResponse)
    (hresp : Verb.response v self url data headers auth allow_redirects timeout transport = resp) :
    ((Verb.call v self url data headers auth allow_redirects timeout status_codes transport).2 =
        Except.ok (Response.mk resp) ↔
      resp.status_code ≠ 429 ∧
        (¬ disallowedBranch resp.status_code status_codes self ∨ resp.status_code = 200)) ∧
    ∀ r2 : Response,
      (Verb.call v self url data headers auth allow_redirects timeout status_codes transport).2 =
          Except.ok r2 → r2 = Response.mk resp := by
  subst hresp
  rw [Verb.call_eq]
  constructor
  · by_cases h429 :
        (Verb.response v self url data headers auth allow_redirects timeout transport).status_code
          = 429
    · simp [Request.classify, h429, Except.map]
    · by_cases hdis : disallowedBranch
          (Verb.response v self url data headers auth allow_redirects timeout transport).status_code
          status_codes self
      · by_cases h200 :
            (Verb.response v self url data headers auth allow_redirects timeout transport).status_code
              = 200
        · simp [Request.classify, h429, hdis, h200, Except.map]
        · by_cases h404 :
              (Verb.response v self url data headers auth allow_redirects timeout transport).status_code
                = 404
          · rw [h404] at hdis
            simp [Request.classify, h429, hdis, h200, h404, Except.map]
          · by_cases hr :
                400 ≤ (Verb.response v self url data headers auth allow_redirects timeout transport).status_code ∧
                  (Verb.response v self url data headers auth allow_redirects timeout transport).status_code < 600
            · simp [Request.classify, raise_for_status, h429, hdis, h200, h404, hr, Except.map]
            · simp [Request.classify, raise_for_status, h429, hdis, h200, h404, hr, Except.map]
      · simp [Request.classify, h429, hdis, Except.map]
  · intro r2 h
    rcases hc : Request.classify self
        (Verb.response v self url data headers auth allow_redirects timeout transport)
        status_codes with e | y
    · rw [hc] at h
      simp [Except.map] at h
    · rw [hc] at h
      simp [Except.map] at h
      rw [← h, Request.classify_ok self _ status_codes y hc]

/-- C2 witness: an allowed 200 response is wrapped, the wrapped response is
the transport's response, and those facts follow from the characterization
at a concrete input. -/
theorem response_wrapping_witness :
    Verb.response Verb.get Request.init "http://example.test/x" [] [] [] true none
        (sampleTransport 200) = sampleResponse 200 ∧
    ((Verb.call Verb.get Request.init "http://example.test/x" [] [] [] true none []
        (sampleTransport 200)).2 = Except.ok (Response.mk (sampleResponse 200)) ↔
      (sampleResponse 200).status_code ≠ 429 ∧
        (¬ disallowedBranch (sampleResponse 200).status_code [] Request.init ∨
          (sampleResponse 200).status_code = 200)) :=
  ⟨rfl,
    (response_wrapping_characterization Verb.get Request.init "http://example.test/x" [] [] [] true
      none [] (sampleTransport 200) (sampleResponse 200) rfl).1⟩

/-- C10: the wildcard is honored only in the caller-supplied `status_codes`:
with an empty caller list, the disallowed-status branch condition of line 98
holds exactly when the status code is not literally a member of the session
tuple — a wildcard sitting in the session tuple grants no allowance, and
removing it from the session tuple changes no verb call's outcome. -/
theorem session_wildcard_ignored (v : Verb) (self : Request) (url : String)
    (data headers : List (String × String)) (auth : List String)
    (allow_redirects : Bool) (timeout : Option (Nat × Nat))
    (transport : TransportArgs → RawResponse) (s : Nat)
    (_hstar : StatusEntry.star ∈ self.allowed_status_codes) :
    (disallowedBranch s [] self ↔ StatusEntry.code s ∉ self.allowed_status_codes) ∧
    (Verb.call v
        { self with allowed_status_codes :=
            self.allowed_status_codes.filter (fun e => decide (e ≠ StatusEntry.star)) }
        url data headers auth allow_redirects timeout [] transport).2 =
      (Verb.call v self url data headers auth allow_redirects timeout [] transport).2 := by
  constructor
  · simp [disallowedBranch, effectiveAllowList]
  · rw [Verb.call_eq, Verb.call_eq]
    have hresp :
        Verb.response v
            { self with allowed_status_codes :=
                self.allowed_status_codes.filter (fun e => decide (e ≠ StatusEntry.star)) }
            url data headers auth allow_redirects timeout transport =
          Verb.response v self url data headers auth allow_redirects timeout transport := rfl
    rw [hresp]
    have hcond :
        disallowedBranch
            (Verb.response v self url data headers auth allow_redirects timeout transport).status_code
            []
            { self with allowed_status_codes :=
                self.allowed_status_codes.filter (fun e => decide (e ≠ StatusEntry.star)) } ↔
          disallowedBranch
            (Verb.response v self url data headers auth allow_redirects timeout transport).status_code
            [] self := by
      simp [disallowedBranch, effectiveAllowList, List.mem_filter]
    by_cases h429 :
        (Verb.response v self url data headers auth allow_redirects timeout transport).status_code
          = 429
    · simp [Request.classify, h429]
    · simp only [Request.classify, h429, if_false, if_neg h429]
      rw [if_congr hcond rfl rfl]

/-- C10 witness: with the session allow-list `("*",)` and an empty caller
list, a 201 status is still treated as disallowed, and dropping the wildcard
from the session tuple leaves the call's outcome unchanged. -/
theorem session_wildcard_witness :
    StatusEntry.star ∈ starSession.allowed_status_codes ∧
    ((disallowedBranch 201 [] starSession ↔
        StatusEntry.code 201 ∉ starSession.allowed_status_codes) ∧
      (Verb.call Verb.get
          { starSession with allowed_status_codes :=
              starSession.allowed_status_codes.filter (fun e => decide (e ≠ StatusEntry.star)) }
          "http://example.test/x" [] [] [] true none [] (sampleTransport 201)).2 =
        (Verb.call Verb.get starSession "http://example.test/x"
          [] [] [] true none [] (sampleTransport 201)).2) :=
  ⟨by decide,
    session_wildcard_ignored Verb.get starSession
      "http://example.test/x" [] [] [] true none (sampleTransport 201) 201 (by decide)⟩
